import Mathlib

/-!
Verification of `forex_trello.py` (Bandile02/ffwebscaper).

The file shallowly embeds the four components of the script:
configuration is abstracted away (it only feeds strings into the other
components), the news fetcher `get_high_impact_news`, the comment
formatter `format_news_comment`, and the board updater
`update_trello_card`.  HTML parsing by BeautifulSoup is modelled by a
`CalendarRow` record per `<tr class="calendar_row">` element: each
`row.find('td', class_=...)` result becomes an `Option` field (`none`
when the element is absent).  Python exceptions become `Except` values
fed into the embedded functions; `print` diagnostics become returned
strings.
-/

namespace ForexTrello

/-- Python's default `str.strip`: remove leading and trailing whitespace
characters (modelled by `Char.isWhitespace`). -/
def stripChars (l : List Char) : List Char :=
  ((l.dropWhile Char.isWhitespace).reverse.dropWhile Char.isWhitespace).reverse

/-- `s.strip()` on Lean strings. -/
def pyStrip (s : String) : String := String.mk (stripChars s.toList)

/-- `s.lower()`. -/
def strLower (s : String) : String := String.mk (s.toList.map Char.toLower)

/-- Helper for substring search: does `needle` start `hay`? -/
def startsWithSub : List Char → List Char → Bool
  | [], _ => true
  | _ :: _, [] => false
  | a :: as, b :: bs => a == b && startsWithSub as bs

/-- Python's `needle in hay` substring test on character lists. -/
def containsSub (needle : List Char) : List Char → Bool
  | [] => startsWithSub needle []
  | hay@(_ :: rest) => startsWithSub needle hay || containsSub needle rest

/-- The impact `<td>` as BeautifulSoup hands it to the script: `html` is
the full serialization `str(tag)` (tag, attributes and children) and
`text` is `tag.text`.  Line 50 of the source applies `str(...)` to the
tag, so both views are modelled. -/
structure ImpactCell where
  html : String
  text : String
deriving DecidableEq, Repr

/-- One `<tr class="calendar_row">` element, reduced to the outcomes of
the six `row.find('td', class_=...)` calls the script performs (lines
49-59).  For the five data cells only `.text` is ever used, so they are
modelled by their text; `none` means the `<td>` is absent. -/
structure CalendarRow where
  impact : Option ImpactCell
  date : Option String
  time : Option String
  currency : Option String
  event : Option String
  forecast : Option String
  previous : Option String
deriving DecidableEq, Repr

/-- The dict appended on lines 61-68.  `date` is `Option String` because
`current_date` starts as Python `None` and is stored unchanged. -/
structure NewsEvent where
  date : Option String
  time : String
  currency : String
  event : String
  forecast : String
  previous : String
deriving DecidableEq, Repr

/-- Line 50: `impact and 'high' in str(impact).lower()`. -/
def rowIsHigh (r : CalendarRow) : Bool :=
  match r.impact with
  | some cell => containsSub "high".toList (strLower cell.html).toList
  | none => false

/-- The date a row declares: lines 51-52 take the date cell's stripped
text when the cell is present and the stripped text is non-empty
(truthy). -/
def declaredDate (r : CalendarRow) : Option String :=
  match r.date with
  | some t => if pyStrip t = "" then none else some (pyStrip t)
  | none => none

/-- Lines 51-53: `current_date` is overwritten by a declared date and
kept otherwise. -/
def stepDate (cur : Option String) (r : CalendarRow) : Option String :=
  match declaredDate r with
  | some d => some d
  | none => cur

/-- Lines 63-67: `cell.text.strip() if cell else 'N/A'`. -/
def optField : Option String → String
  | some t => pyStrip t
  | none => "N/A"

/-- The dict built on lines 61-68 for one qualifying row, given the
value of `current_date` after lines 51-53 ran on this row. -/
def mkEvent (cur : Option String) (r : CalendarRow) : NewsEvent :=
  { date := cur
    time := optField r.time
    currency := optField r.currency
    event := optField r.event
    forecast := optField r.forecast
    previous := optField r.previous }

/-- The loop of lines 48-68: walk the calendar rows in document order
threading `current_date`; rows failing the impact test on line 50 are
skipped entirely (their date cell is never read). -/
def scanRows (cur : Option String) : List CalendarRow → List NewsEvent
  | [] => []
  | r :: rs =>
    if rowIsHigh r then
      mkEvent (stepDate cur r) r :: scanRows (stepDate cur r) rs
    else
      scanRows cur rs

/-- The HTTP response for the calendar page, already parsed: `rows` is
the `find_all('tr', class_='calendar_row')` result. -/
structure HttpResponse where
  status : Nat
  rows : List CalendarRow
deriving DecidableEq, Repr

/-- `get_high_impact_news` (lines 30-74).  The argument is the outcome
of `requests.get` plus parsing: `Except.error` stands for a raised
network or parse exception.  `raise_for_status` (line 41) raises for
any status of 400 or above; the `except` block on lines 72-74 turns any
raised exception into a printed diagnostic (second component) and an
empty list. -/
def get_high_impact_news (resp : Except String HttpResponse) :
    List NewsEvent × List String :=
  match resp with
  | .error e => ([], ["Error fetching forex data: " ++ e])
  | .ok r =>
    if 400 ≤ r.status then
      ([], ["Error fetching forex data: " ++ toString r.status ++ " Error"])
    else
      (scanRows none r.rows, [])

/-- A `datetime.now()` value, reduced to the six fields `strftime`
reads. -/
structure Timestamp where
  year : Nat
  month : Nat
  day : Nat
  hour : Nat
  minute : Nat
  second : Nat
deriving DecidableEq, Repr

/-- Zero-padding to two digits, as `%m`, `%d`, `%H`, `%M`, `%S` do. -/
def pad2 (n : Nat) : String :=
  if n < 10 then "0" ++ toString n else toString n

/-- Zero-padding to four digits, as `%Y` does. -/
def pad4 (n : Nat) : String :=
  if n < 10 then "000" ++ toString n
  else if n < 100 then "00" ++ toString n
  else if n < 1000 then "0" ++ toString n
  else toString n

/-- `datetime.now().strftime('%Y-%m-%d %H:%M:%S')` (line 89). -/
def strftimeYmdHms (t : Timestamp) : String :=
  pad4 t.year ++ "-" ++ pad2 t.month ++ "-" ++ pad2 t.day ++ " " ++
  pad2 t.hour ++ ":" ++ pad2 t.minute ++ ":" ++ pad2 t.second

/-- How an f-string renders the `date` value: Python `None` prints as
`None`. -/
def showOptDate : Option String → String
  | some d => d
  | none => "None"

/-- The two `comment +=` f-strings of lines 86-87 for one item. -/
def newsRow (it : NewsEvent) : String :=
  "| " ++ showOptDate it.date ++ " | " ++ it.time ++ " | " ++
  it.currency ++ " | " ++ it.event ++ " | " ++ it.forecast ++ " | " ++
  it.previous ++ " |\n"

/-- Lines 81-83: the heading and the two table-header lines, copied
verbatim from the source. -/
def tableHeader : String :=
  "# High Impact Forex News Events\n\n" ++
  "| Date | Time | Currency | Event | Forecast | Previous |\n" ++
  "|------|------|----------|--------|----------|----------|\n"

/-- `format_news_comment` (lines 76-90).  The current time is passed in
as an argument so the function is a pure embedding of the code. -/
def format_news_comment (news_items : List NewsEvent) (now : Timestamp) :
    String :=
  if news_items.isEmpty then
    "No high-impact news events found."
  else
    (news_items.foldl (fun acc it => acc ++ newsRow it) tableHeader) ++
    "\nLast updated: " ++ strftimeYmdHms now

/-- A Trello card as the script sees it: a name to compare on line 111
and an identity (`id`) that distinguishes same-named cards. -/
structure TrelloCard where
  id : String
  name : String
deriving DecidableEq, Repr

/-- A Trello list: a name (line 101) and its cards (`list_cards`). -/
structure TrelloList where
  name : String
  cards : List TrelloCard
deriving DecidableEq, Repr

/-- A Trello board: its lists (`list_lists`). -/
structure TrelloBoard where
  lists : List TrelloList
deriving DecidableEq, Repr

/-- What `update_trello_card` did: `posted` is the card id and comment
text actually sent on line 119 (or `none`), `log` is the line printed
on line 120 or 123. -/
structure UpdateResult where
  posted : Option (String × String)
  log : String
deriving DecidableEq, Repr

/-- The `for ... if ...: x = ...; break` loops of lines 99-113: first
element satisfying `p`, or `none`. -/
def findFirst (p : α → Bool) : List α → Option α
  | [] => none
  | x :: xs => if p x then some x else findFirst p xs

/-- `update_trello_card` (lines 92-123).  `board?` is the outcome of
`self.trello.get_board` (`Except.error` means the client raised);
`post` is the outcome of `card.comment(comment_text)` on line 119.
The two `raise Exception(...)` statements (lines 106 and 116) and every
client exception are caught by the handler on lines 122-123, which
prints the diagnostic returned in `log`. -/
def update_trello_card (board? : Except String TrelloBoard)
    (listName cardName commentText : String)
    (post : Except String Unit) : UpdateResult :=
  match board? with
  | .error e => ⟨none, "Error updating Trello card: " ++ e⟩
  | .ok board =>
    match findFirst (fun l => l.name == listName) board.lists with
    | none =>
        ⟨none, "Error updating Trello card: List \x27" ++ listName ++
          "\x27 not found"⟩
    | some lst =>
      match findFirst (fun c => c.name == cardName) lst.cards with
      | none =>
          ⟨none, "Error updating Trello card: Card \x27" ++ cardName ++
            "\x27 not found"⟩
      | some card =>
        match post with
        | .error e => ⟨none, "Error updating Trello card: " ++ e⟩
        | .ok _ =>
            ⟨some (card.id, commentText),
              "Successfully updated Trello card with forex news"⟩

/-! ## Specification-side definitions

The following definitions formalise claim wordings, to be compared with
the embedding above. -/

/-- Formalisation of the spec's words for the high-impact test of claim
C2: the row "carries an impact marker and that marker's TEXT contains
high (case-insensitive)".  Compare `rowIsHigh`, which follows line 50
of the source and searches `str(impact)` instead. -/
def rowIsHighText (r : CalendarRow) : Bool :=
  match r.impact with
  | some cell => containsSub "high".toList (strLower cell.text).toList
  | none => false

/-- Formalisation of claim C1's words: thread the running date through
EVERY row ("the most recent row with a non-empty date cell that appears
at or before that event's row in document order"), emitting one date
per qualifying row.  Compare `scanRows`, which only updates the running
date on rows that passed the impact filter. -/
def specDatesAll (cur : Option String) : List CalendarRow → List (Option String)
  | [] => []
  | r :: rs =>
    if rowIsHigh r then
      stepDate cur r :: specDatesAll (stepDate cur r) rs
    else
      specDatesAll (stepDate cur r) rs

/-- The body of the fetch loop applied to every row of its input,
without the impact filter: `scanRows` equals `scanHigh` composed with
`List.filter rowIsHigh` (lemma `scanRows_eq_filter`). -/
def scanHigh (cur : Option String) : List CalendarRow → List NewsEvent
  | [] => []
  | r :: rs => mkEvent (stepDate cur r) r :: scanHigh (stepDate cur r) rs

/-- `true` iff the string neither starts nor ends with a whitespace
character. -/
def edgeOk (l : List Char) : Bool :=
  (match l.head? with
   | some c => !c.isWhitespace
   | none => true) &&
  (match l.getLast? with
   | some c => !c.isWhitespace
   | none => true)

/-- A string with no leading or trailing whitespace. -/
def strippedStr (s : String) : Bool := edgeOk s.toList

/-! ## Concrete inputs used by counterexamples and witnesses -/

/-- An impact cell as Forex Factory renders it: the rating appears only
in an attribute of the serialization, and the cell TEXT is empty. -/
def hiCellAttr : ImpactCell :=
  ⟨"<td class=\"impact\"><span title=\"High Impact Expected\"></span></td>", ""⟩

/-- A low-impact marker cell: no "high" anywhere. -/
def loCellAttr : ImpactCell :=
  ⟨"<td class=\"impact\"><span title=\"Low Impact Expected\"></span></td>", ""⟩

/-- High-impact row declaring date "Jan 5". -/
def cexRow1 : CalendarRow :=
  ⟨some hiCellAttr, some "Jan 5", some "8:30am", some "USD", some "NFP",
    none, some "180K"⟩

/-- Low-impact row declaring date "Jan 6": its date cell is never read
by the code. -/
def cexRow2 : CalendarRow :=
  ⟨some loCellAttr, some "Jan 6", some "9:00am", some "EUR", some "CPI",
    some "2.0%", some "1.9%"⟩

/-- High-impact row with no date cell: it inherits a carried date. -/
def cexRow3 : CalendarRow :=
  ⟨some hiCellAttr, none, some "10:00am", some "GBP", some "Rate",
    none, none⟩

/-- High-impact row in which all six data cells are absent. -/
def c3Row : CalendarRow :=
  ⟨some hiCellAttr, none, none, none, none, none, none⟩

/-- High-impact row whose five data cells are present but blank or
whitespace-only. -/
def c9Row : CalendarRow :=
  ⟨some hiCellAttr, some "Jan 7", some "  ", some "", some " ",
    some "\t", some " \n"⟩

/-- High-impact row whose data cells all carry padded text. -/
def c10Row : CalendarRow :=
  ⟨some hiCellAttr, some " Jan 8 ", some " 9:00am ", some " USD ",
    some " CPI ", some " 2% ", some " 1% "⟩

/-! ## Helper lemmas -/

theorem findFirst_eq_find? (p : α → Bool) (l : List α) :
    findFirst p l = l.find? p := by
  induction l with
  | nil => rfl
  | cons x xs ih =>
    simp only [findFirst, List.find?_cons]
    cases h : p x <;> simp [ih]

theorem scanRows_eq_filter (rows : List CalendarRow) :
    ∀ cur, scanRows cur rows = scanHigh cur (rows.filter rowIsHigh) := by
  induction rows with
  | nil => intro cur; rfl
  | cons r rs ih =>
    intro cur
    cases h : rowIsHigh r with
    | true =>
      rw [List.filter_cons_of_pos h]
      simp [scanRows, scanHigh, h, ih]
    | false =>
      rw [List.filter_cons_of_neg (by simp [h])]
      simp [scanRows, h, ih]

theorem scanHigh_getElem? (hs : List CalendarRow) :
    ∀ cur k, (scanHigh cur hs)[k]? =
      (hs[k]?).map (fun r => mkEvent (List.foldl stepDate cur (hs.take (k + 1))) r) := by
  induction hs with
  | nil => intro cur k; simp [scanHigh]
  | cons r rs ih =>
    intro cur k
    cases k with
    | zero => simp [scanHigh]
    | succ k => simp [scanHigh, ih (stepDate cur r) k]

theorem foldl_stepDate_eq_getLast (l : List CalendarRow) :
    ∀ cur, List.foldl stepDate cur l =
      ((l.filterMap declaredDate).getLast?).elim cur some := by
  induction l with
  | nil => intro cur; rfl
  | cons r rs ih =>
    intro cur
    cases hd : declaredDate r with
    | none =>
      rw [List.filterMap_cons_none hd]
      have hstep : stepDate cur r = cur := by simp [stepDate, hd]
      simp [List.foldl, hstep, ih]
    | some d =>
      rw [List.filterMap_cons_some hd]
      have hstep : stepDate cur r = some d := by simp [stepDate, hd]
      simp only [List.foldl, hstep, ih]
      cases hL : rs.filterMap declaredDate with
      | nil => simp
      | cons x xs =>
        rw [List.getLast?_cons_cons]
        cases hy : (x :: xs).getLast? with
        | none => simp at hy
        | some y => simp [hy]

theorem foldl_stepDate_none (l : List CalendarRow) :
    List.foldl stepDate none l = (l.filterMap declaredDate).getLast? := by
  rw [foldl_stepDate_eq_getLast]
  cases (l.filterMap declaredDate).getLast? <;> rfl

theorem head?_dropWhile_not (p : α → Bool) (l : List α) :
    ∀ c, (l.dropWhile p).head? = some c → p c = false := by
  induction l with
  | nil => intro c h; simp [List.dropWhile] at h
  | cons x xs ih =>
    intro c h
    rw [List.dropWhile_cons] at h
    cases hx : p x with
    | true => rw [hx] at h; simp at h; exact ih c h
    | false => rw [hx] at h; simp at h; rw [← h]; exact hx

theorem getLast?_dropWhile (p : α → Bool) (l : List α)
    (h : l.dropWhile p ≠ []) :
    (l.dropWhile p).getLast? = l.getLast? := by
  conv_rhs => rw [← List.takeWhile_append_dropWhile p l]
  rw [List.getLast?_append_of_ne_nil _ h]

theorem head?_stripChars (l : List Char) :
    ∀ c, (stripChars l).head? = some c → c.isWhitespace = false := by
  intro c h
  rw [stripChars, List.head?_reverse] at h
  have hne : ((l.dropWhile Char.isWhitespace).reverse.dropWhile Char.isWhitespace) ≠ [] := by
    intro h0; rw [h0] at h; simp at h
  rw [getLast?_dropWhile _ _ hne, List.getLast?_reverse] at h
  exact head?_dropWhile_not _ _ c h

theorem getLast?_stripChars (l : List Char) :
    ∀ c, (stripChars l).getLast? = some c → c.isWhitespace = false := by
  intro c h
  rw [stripChars, List.getLast?_reverse] at h
  exact head?_dropWhile_not _ _ c h

theorem edgeOk_stripChars (l : List Char) : edgeOk (stripChars l) = true := by
  simp only [edgeOk, Bool.and_eq_true]
  constructor
  · cases hh : (stripChars l).head? with
    | none => simp
    | some c => simp [head?_stripChars l c hh]
  · cases hg : (stripChars l).getLast? with
    | none => simp
    | some c => simp [getLast?_stripChars l c hg]

theorem strippedStr_pyStrip (s : String) : strippedStr (pyStrip s) = true := by
  unfold strippedStr pyStrip
  show edgeOk (String.mk (stripChars s.toList)).toList = true
  have : (String.mk (stripChars s.toList)).toList = stripChars s.toList := rfl
  rw [this]
  exact edgeOk_stripChars s.toList

theorem stripChars_eq_nil_of_ws (l : List Char)
    (h : ∀ c ∈ l, c.isWhitespace) : stripChars l = [] := by
  unfold stripChars
  have h1 : l.dropWhile Char.isWhitespace = [] :=
    List.dropWhile_eq_nil_iff.mpr h
  simp [h1, List.dropWhile]

theorem pyStrip_of_all_ws (t : String)
    (h : t.toList.all Char.isWhitespace = true) : pyStrip t = "" := by
  unfold pyStrip
  rw [stripChars_eq_nil_of_ws t.toList (fun c hc => List.all_eq_true.mp h c hc)]

theorem foldl_append_str (f : α → String) (l : List α) :
    ∀ s : String, l.foldl (fun acc x => acc ++ f x) s =
      s ++ l.foldr (fun x acc => f x ++ acc) "" := by
  induction l with
  | nil => intro s; simp [List.foldl, List.foldr]
  | cons x xs ih =>
    intro s
    simp only [List.foldl, List.foldr, ih, String.append_assoc]

theorem declaredDate_stripped (r : CalendarRow) (d : String)
    (h : declaredDate r = some d) : strippedStr d = true := by
  unfold declaredDate at h
  cases hc : r.date with
  | none => rw [hc] at h; simp at h
  | some t =>
    rw [hc] at h
    by_cases hemp : pyStrip t = ""
    · simp [hemp] at h
    · simp [hemp] at h
      rw [← h]
      exact strippedStr_pyStrip t

/-! ## Claims -/

/-- C4.  For the empty event sequence the formatter returns exactly the
literal sentinel string, and for any fetched page whose calendar rows
contain no high-impact row the whole fetch-then-format pipeline returns
exactly that string (whatever the HTTP status was). -/
theorem c4_empty_sentinel (now : Timestamp) (st : Nat)
    (rows : List CalendarRow)
    (h : ∀ r ∈ rows, rowIsHigh r = false) :
    format_news_comment [] now = "No high-impact news events found." ∧
    format_news_comment
        (get_high_impact_news (Except.ok ⟨st, rows⟩)).fst now =
      "No high-impact news events found." := by
  constructor
  · rfl
  · simp only [get_high_impact_news]
    by_cases hst : 400 ≤ st
    · rw [if_pos hst]; rfl
    · rw [if_neg hst]
      have hf : rows.filter rowIsHigh = [] :=
        List.filter_eq_nil_iff.mpr (fun a ha => by simp [h a ha])
      show format_news_comment (scanRows none rows) now = _
      rw [scanRows_eq_filter, hf]
      rfl

/-- Witness for C4 at a page containing one low-impact row. -/
theorem c4_empty_sentinel_witness :
    format_news_comment [] ⟨2025, 1, 5, 8, 30, 0⟩ =
      "No high-impact news events found." ∧
    format_news_comment
        (get_high_impact_news (Except.ok ⟨200, [cexRow2]⟩)).fst
        ⟨2025, 1, 5, 8, 30, 0⟩ =
      "No high-impact news events found." :=
  c4_empty_sentinel ⟨2025, 1, 5, 8, 30, 0⟩ 200 [cexRow2] (by decide)

/-- C5.  A raised network or parse exception (the `Except.error` input)
and a non-success HTTP status (400 or above, which makes
`raise_for_status` raise) are both caught inside the fetcher: it
returns the empty event sequence together with a printed diagnostic,
and never re-raises. -/
theorem c5_fetch_error_contained (e : String) (st : Nat)
    (rows : List CalendarRow) (h : 400 ≤ st) :
    get_high_impact_news (Except.error e) =
      ([], ["Error fetching forex data: " ++ e]) ∧
    (get_high_impact_news (Except.ok ⟨st, rows⟩)).fst = [] ∧
    (get_high_impact_news (Except.ok ⟨st, rows⟩)).snd ≠ [] := by
  refine ⟨rfl, ?_, ?_⟩ <;> simp [get_high_impact_news, if_pos h]

/-- Witness for C5 at a connection failure and an HTTP 500 response. -/
theorem c5_fetch_error_contained_witness :
    get_high_impact_news (Except.error "connection refused") =
      ([], ["Error fetching forex data: connection refused"]) ∧
    (get_high_impact_news (Except.ok ⟨500, [cexRow1]⟩)).fst = [] ∧
    (get_high_impact_news (Except.ok ⟨500, [cexRow1]⟩)).snd ≠ [] :=
  c5_fetch_error_contained "connection refused" 500 [cexRow1] (by decide)

/-- C7.  On a non-empty event sequence the formatter output is exactly:
the level-1 heading, the six-column table header (Date, Time, Currency,
Event, Forecast, Previous, in that order and casing), its separator
line, one table row per event in input order (the `foldr` keeps the
input order), then a blank line (the final row ends in a newline and
the footer adds another) and the final line `Last updated: <timestamp>`
with the timestamp rendered by the `%Y-%m-%d %H:%M:%S` model. -/
theorem c7_format_structure (news_items : List NewsEvent) (now : Timestamp)
    (h : news_items ≠ []) :
    format_news_comment news_items now =
      "# High Impact Forex News Events\n\n" ++
      "| Date | Time | Currency | Event | Forecast | Previous |\n" ++
      "|------|------|----------|--------|----------|----------|\n" ++
      news_items.foldr (fun it acc => newsRow it ++ acc) "" ++
      "\n" ++ ("Last updated: " ++ strftimeYmdHms now) := by
  unfold format_news_comment
  rw [if_neg (by simp [List.isEmpty_iff, h])]
  rw [foldl_append_str]
  simp only [tableHeader, String.append_assoc]
  rfl

/-- Witness for C7 at the one-event sequence of spec section 8. -/
theorem c7_format_structure_witness :
    format_news_comment
        [⟨some "Jan 5", "8:30am", "USD", "Non-Farm Payrolls", "N/A", "180K"⟩]
        ⟨2025, 1, 5, 8, 30, 0⟩ =
      "# High Impact Forex News Events\n\n" ++
      "| Date | Time | Currency | Event | Forecast | Previous |\n" ++
      "|------|------|----------|--------|----------|----------|\n" ++
      ([⟨some "Jan 5", "8:30am", "USD", "Non-Farm Payrolls", "N/A", "180K"⟩] :
        List NewsEvent).foldr (fun it acc => newsRow it ++ acc) "" ++
      "\n" ++ ("Last updated: " ++ strftimeYmdHms ⟨2025, 1, 5, 8, 30, 0⟩) :=
  c7_format_structure
    [⟨some "Jan 5", "8:30am", "USD", "Non-Farm Payrolls", "N/A", "180K"⟩]
    ⟨2025, 1, 5, 8, 30, 0⟩ (by decide)

/-- Board containing no list named "Target". -/
def wBoard2 : TrelloBoard := ⟨[⟨"Other", [⟨"k0", "Card"⟩]⟩]⟩

/-- The "Target" list of `wBoard3`: it has no card named "Card". -/
def wLst3 : TrelloList := ⟨"Target", [⟨"k9", "Misc"⟩]⟩

/-- Board whose matching list carries no matching card. -/
def wBoard3 : TrelloBoard := ⟨[wLst3]⟩

/-- The "Target" list of `wBoard4`, carrying a matching card. -/
def wCard4 : TrelloCard := ⟨"k1", "Card"⟩

/-- See `wBoard4`. -/
def wLst4 : TrelloList := ⟨"Target", [wCard4]⟩

/-- Board on which the lookup fully succeeds. -/
def wBoard4 : TrelloBoard := ⟨[⟨"Other", []⟩, wLst4]⟩

/-- First matching list of `w8Board`; its first matching card is
`⟨"k1", "Card"⟩` even though a later card has the same name. -/
def w8Lst1 : TrelloList := ⟨"Target", [⟨"k1", "Card"⟩, ⟨"k2", "Card"⟩]⟩

/-- A second list also named "Target", to exercise first-match. -/
def w8Lst2 : TrelloList := ⟨"Target", [⟨"k3", "Card"⟩]⟩

/-- Board with duplicate list names and duplicate card names. -/
def w8Board : TrelloBoard :=
  ⟨[⟨"Other", [⟨"k0", "Card"⟩]⟩, w8Lst1, w8Lst2]⟩

/-- C6.  Every failure path of the board update is caught internally
and surfaces as a returned diagnostic with no comment posted: a raised
board retrieval error, a board without the configured list name (the
diagnostic names that list), a matching list without the configured
card name (the diagnostic names that card), and a raised API error
while posting the comment.  The function returns an `UpdateResult` in
every case, never an exception. -/
theorem c6_update_error_contained
    (e pe ln cn cm : String) (post : Except String Unit)
    (b₂ b₃ b₄ : TrelloBoard) (lst₃ lst₄ : TrelloList) (card₄ : TrelloCard)
    (h₂ : ∀ l ∈ b₂.lists, ¬ l.name = ln)
    (h₃l : b₃.lists.find? (fun l => l.name == ln) = some lst₃)
    (h₃c : ∀ c ∈ lst₃.cards, ¬ c.name = cn)
    (h₄l : b₄.lists.find? (fun l => l.name == ln) = some lst₄)
    (h₄c : lst₄.cards.find? (fun c => c.name == cn) = some card₄) :
    update_trello_card (Except.error e) ln cn cm post =
      ⟨none, "Error updating Trello card: " ++ e⟩ ∧
    update_trello_card (Except.ok b₂) ln cn cm post =
      ⟨none, "Error updating Trello card: List \x27" ++ ln ++
        "\x27 not found"⟩ ∧
    update_trello_card (Except.ok b₃) ln cn cm post =
      ⟨none, "Error updating Trello card: Card \x27" ++ cn ++
        "\x27 not found"⟩ ∧
    update_trello_card (Except.ok b₄) ln cn cm (Except.error pe) =
      ⟨none, "Error updating Trello card: " ++ pe⟩ := by
  have hf₂ : b₂.lists.find? (fun l => l.name == ln) = none :=
    List.find?_eq_none.mpr (fun x hx => by simp [h₂ x hx])
  have hf₃ : lst₃.cards.find? (fun c => c.name == cn) = none :=
    List.find?_eq_none.mpr (fun x hx => by simp [h₃c x hx])
  refine ⟨rfl, ?_, ?_, ?_⟩
  · simp [update_trello_card, findFirst_eq_find?, hf₂]
  · simp [update_trello_card, findFirst_eq_find?, h₃l, hf₃]
  · simp [update_trello_card, findFirst_eq_find?, h₄l, h₄c]

/-- Witness for C6 on concrete boards for all four failure paths. -/
theorem c6_update_error_contained_witness :
    update_trello_card (Except.error "boom") "Target" "Card" "cmt"
        (Except.ok ()) =
      ⟨none, "Error updating Trello card: boom"⟩ ∧
    update_trello_card (Except.ok wBoard2) "Target" "Card" "cmt"
        (Except.ok ()) =
      ⟨none, "Error updating Trello card: List \x27Target\x27 not found"⟩ ∧
    update_trello_card (Except.ok wBoard3) "Target" "Card" "cmt"
        (Except.ok ()) =
      ⟨none, "Error updating Trello card: Card \x27Card\x27 not found"⟩ ∧
    update_trello_card (Except.ok wBoard4) "Target" "Card" "cmt"
        (Except.error "netfail") =
      ⟨none, "Error updating Trello card: netfail"⟩ :=
  c6_update_error_contained "boom" "netfail" "Target" "Card" "cmt"
    (Except.ok ()) wBoard2 wBoard3 wBoard4 wLst3 wLst4 wCard4
    (by decide) (by decide) (by decide) (by decide) (by decide)

/-- C8.  The updater selects the FIRST list whose name equals the
configured list name (`List.find?` returns the first match) and, inside
it, the FIRST card whose name equals the configured card name, then
posts the comment to exactly that card; when no list or no card
matches, it aborts with a descriptive error naming the configured list
or card and posts nothing. -/
theorem c8_first_exact_match
    (ln cn cm : String) (b b₂ b₃ : TrelloBoard)
    (lst lst₃ : TrelloList) (card : TrelloCard)
    (hl : b.lists.find? (fun l => l.name == ln) = some lst)
    (hc : lst.cards.find? (fun c => c.name == cn) = some card)
    (h₂ : b₂.lists.find? (fun l => l.name == ln) = none)
    (h₃l : b₃.lists.find? (fun l => l.name == ln) = some lst₃)
    (h₃c : lst₃.cards.find? (fun c => c.name == cn) = none) :
    update_trello_card (Except.ok b) ln cn cm (Except.ok ()) =
      ⟨some (card.id, cm),
        "Successfully updated Trello card with forex news"⟩ ∧
    update_trello_card (Except.ok b₂) ln cn cm (Except.ok ()) =
      ⟨none, "Error updating Trello card: List \x27" ++ ln ++
        "\x27 not found"⟩ ∧
    update_trello_card (Except.ok b₃) ln cn cm (Except.ok ()) =
      ⟨none, "Error updating Trello card: Card \x27" ++ cn ++
        "\x27 not found"⟩ := by
  refine ⟨?_, ?_, ?_⟩
  · simp [update_trello_card, findFirst_eq_find?, hl, hc]
  · simp [update_trello_card, findFirst_eq_find?, h₂]
  · simp [update_trello_card, findFirst_eq_find?, h₃l, h₃c]

/-- Witness for C8 on a board with duplicate list and card names: the
comment lands on card id "k1", the first match of the first matching
list, not on the same-named "k2" or "k3". -/
theorem c8_first_exact_match_witness :
    update_trello_card (Except.ok w8Board) "Target" "Card" "cmt"
        (Except.ok ()) =
      ⟨some ("k1", "cmt"),
        "Successfully updated Trello card with forex news"⟩ ∧
    update_trello_card (Except.ok wBoard2) "Target" "Card" "cmt"
        (Except.ok ()) =
      ⟨none, "Error updating Trello card: List \x27Target\x27 not found"⟩ ∧
    update_trello_card (Except.ok wBoard3) "Target" "Card" "cmt"
        (Except.ok ()) =
      ⟨none, "Error updating Trello card: Card \x27Card\x27 not found"⟩ :=
  c8_first_exact_match "Target" "Card" "cmt" w8Board wBoard2 wBoard3
    w8Lst1 wLst3 ⟨"k1", "Card"⟩
    (by decide) (by decide) (by decide) (by decide) (by decide)

/-- C1 counterexample.  Input: a high-impact row dated "Jan 5", then a
LOW-impact row dated "Jan 6", then a high-impact row with no date cell.
The claim ("the most recent row with a non-empty date cell at or before
the event's row", over ALL rows, formalised by `specDatesAll`) demands
dates [Jan 5, Jan 6]; the code never reads the date cell of the skipped
low-impact row and yields [Jan 5, Jan 5]. -/
theorem c1_date_carry_counterexample :
    (scanRows none [cexRow1, cexRow2, cexRow3]).map NewsEvent.date =
      [some "Jan 5", some "Jan 5"] ∧
    specDatesAll none [cexRow1, cexRow2, cexRow3] =
      [some "Jan 5", some "Jan 6"] ∧
    (scanRows none [cexRow1, cexRow2, cexRow3]).map NewsEvent.date ≠
      specDatesAll none [cexRow1, cexRow2, cexRow3] := by
  refine ⟨by decide, by decide, by decide⟩

/-- C1 (amended).  Each event's `date` is the date declared by the most
recent HIGH-IMPACT row (a row passing the line-50 filter) with a
non-empty date cell at or before the event's row; it is null when no
such row exists.  Date cells of skipped rows are never read. -/
theorem c1_date_carry_amended (rows : List CalendarRow) (k : Nat)
    (ev : NewsEvent) (h : (scanRows none rows)[k]? = some ev) :
    ev.date =
      (((rows.filter rowIsHigh).take (k + 1)).filterMap
        declaredDate).getLast? := by
  rw [scanRows_eq_filter, scanHigh_getElem?] at h
  cases hr : (rows.filter rowIsHigh)[k]? with
  | none => rw [hr] at h; simp at h
  | some row =>
    rw [hr] at h
    simp only [Option.map_some', Option.some_inj] at h
    rw [← h]
    show List.foldl stepDate none ((rows.filter rowIsHigh).take (k + 1)) = _
    exact foldl_stepDate_none _

/-- Witness for C1 (amended): the second event of the counterexample
input carries "Jan 5", the last date declared by a high-impact row at
or before it. -/
theorem c1_date_carry_amended_witness :
    (⟨some "Jan 5", "10:00am", "GBP", "Rate", "N/A", "N/A"⟩ :
        NewsEvent).date =
      ((([cexRow1, cexRow2, cexRow3].filter rowIsHigh).take 2).filterMap
        declaredDate).getLast? :=
  c1_date_carry_amended [cexRow1, cexRow2, cexRow3] 1
    ⟨some "Jan 5", "10:00am", "GBP", "Rate", "N/A", "N/A"⟩ (by decide)

/-- C2 counterexample.  `cexRow1`'s impact marker has empty TEXT, but
its serialization (`str(impact)`) carries "High" inside a `title`
attribute; line 50 tests the lowered serialization, so the code
includes the row while the claim (marker TEXT contains "high",
formalised by `rowIsHighText`) excludes it. -/
theorem c2_high_filter_counterexample :
    rowIsHigh cexRow1 = true ∧ rowIsHighText cexRow1 = false ∧
    (scanRows none [cexRow1]).length = 1 := by
  refine ⟨by decide, by decide, by decide⟩

/-- C2 (amended).  A calendar row is included as a candidate event if
and only if it carries an impact marker cell whose full HTML
serialization (tag, attributes and children, lowercased) contains the
substring "high"; all other rows produce no event and are skipped
entirely. -/
theorem c2_high_filter_amended (cur : Option String)
    (rows : List CalendarRow) :
    scanRows cur rows = scanHigh cur (rows.filter (fun r =>
      match r.impact with
      | some cell => containsSub "high".toList (strLower cell.html).toList
      | none => false)) :=
  scanRows_eq_filter rows cur

/-- C3 counterexample.  A qualifying row with all six cells absent as
the first row of the document: the `date` field of the produced event
is null (Python `None`), not the "N/A" sentinel the claim promises for
"all six fields including `date`". -/
theorem c3_sentinel_counterexample :
    (scanRows none [c3Row]).map NewsEvent.date = [none] ∧
    (scanRows none [c3Row]).map NewsEvent.date ≠ [some "N/A"] ∧
    scanRows none [c3Row] =
      [⟨none, "N/A", "N/A", "N/A", "N/A", "N/A"⟩] := by
  refine ⟨by decide, by decide, by decide⟩

/-- C3 (amended).  For every qualifying row, each of the FIVE columns
time, currency, event, forecast, previous that is absent from the row
yields the literal string "N/A"; the `date` field is not defaulted this
way — it carries the running date and is null when no qualifying row
declared one. -/
theorem c3_sentinel_amended (rows : List CalendarRow) (k : Nat)
    (ev : NewsEvent) (row : CalendarRow)
    (h : (scanRows none rows)[k]? = some ev)
    (hrow : (rows.filter rowIsHigh)[k]? = some row) :
    (row.time = none → ev.time = "N/A") ∧
    (row.currency = none → ev.currency = "N/A") ∧
    (row.event = none → ev.event = "N/A") ∧
    (row.forecast = none → ev.forecast = "N/A") ∧
    (row.previous = none → ev.previous = "N/A") := by
  rw [scanRows_eq_filter, scanHigh_getElem?, hrow] at h
  simp only [Option.map_some', Option.some_inj] at h
  refine ⟨?_, ?_, ?_, ?_, ?_⟩ <;>
    (intro hcell; rw [← h]; simp [mkEvent, optField, hcell])

/-- Witness for C3 (amended) at the all-cells-absent row. -/
theorem c3_sentinel_amended_witness :
    (⟨none, "N/A", "N/A", "N/A", "N/A", "N/A"⟩ : NewsEvent).time = "N/A" ∧
    (⟨none, "N/A", "N/A", "N/A", "N/A", "N/A"⟩ : NewsEvent).currency = "N/A" ∧
    (⟨none, "N/A", "N/A", "N/A", "N/A", "N/A"⟩ : NewsEvent).event = "N/A" ∧
    (⟨none, "N/A", "N/A", "N/A", "N/A", "N/A"⟩ : NewsEvent).forecast = "N/A" ∧
    (⟨none, "N/A", "N/A", "N/A", "N/A", "N/A"⟩ : NewsEvent).previous = "N/A" := by
  have h := c3_sentinel_amended [c3Row] 0
    ⟨none, "N/A", "N/A", "N/A", "N/A", "N/A"⟩ c3Row (by decide) (by decide)
  exact ⟨h.1 rfl, h.2.1 rfl, h.2.2.1 rfl, h.2.2.2.1 rfl, h.2.2.2.2 rfl⟩

/-- C9.  When a data cell is PRESENT on a qualifying row, the resulting
field is its stripped text — the "N/A" sentinel is never substituted
for a present cell — so a present cell whose text is empty or
whitespace-only yields the empty string, not "N/A". -/
theorem c9_present_empty_cell (rows : List CalendarRow) (k : Nat)
    (ev : NewsEvent) (row : CalendarRow)
    (h : (scanRows none rows)[k]? = some ev)
    (hrow : (rows.filter rowIsHigh)[k]? = some row) :
    (∀ t, row.time = some t → ev.time = pyStrip t ∧
      (t.toList.all Char.isWhitespace = true → ev.time = "")) ∧
    (∀ t, row.currency = some t → ev.currency = pyStrip t ∧
      (t.toList.all Char.isWhitespace = true → ev.currency = "")) ∧
    (∀ t, row.event = some t → ev.event = pyStrip t ∧
      (t.toList.all Char.isWhitespace = true → ev.event = "")) ∧
    (∀ t, row.forecast = some t → ev.forecast = pyStrip t ∧
      (t.toList.all Char.isWhitespace = true → ev.forecast = "")) ∧
    (∀ t, row.previous = some t → ev.previous = pyStrip t ∧
      (t.toList.all Char.isWhitespace = true → ev.previous = "")) := by
  rw [scanRows_eq_filter, scanHigh_getElem?, hrow] at h
  simp only [Option.map_some', Option.some_inj] at h
  refine ⟨?_, ?_, ?_, ?_, ?_⟩ <;>
    (intro t ht
     refine ⟨by rw [← h]; simp [mkEvent, optField, ht], ?_⟩
     intro hws
     rw [← h]
     simp [mkEvent, optField, ht, pyStrip_of_all_ws t hws])

/-- Witness for C9 at a row whose five data cells are present but
blank or whitespace-only: every field is the empty string. -/
theorem c9_present_empty_cell_witness :
    (⟨some "Jan 7", "", "", "", "", ""⟩ : NewsEvent).time = "" ∧
    (⟨some "Jan 7", "", "", "", "", ""⟩ : NewsEvent).currency = "" ∧
    (⟨some "Jan 7", "", "", "", "", ""⟩ : NewsEvent).event = "" ∧
    (⟨some "Jan 7", "", "", "", "", ""⟩ : NewsEvent).forecast = "" ∧
    (⟨some "Jan 7", "", "", "", "", ""⟩ : NewsEvent).previous = "" := by
  have h := c9_present_empty_cell [c9Row] 0
    ⟨some "Jan 7", "", "", "", "", ""⟩ c9Row (by decide) (by decide)
  exact ⟨(h.1 "  " rfl).2 (by decide), (h.2.1 "" rfl).2 (by decide),
    (h.2.2.1 " " rfl).2 (by decide), (h.2.2.2.1 "\t" rfl).2 (by decide),
    (h.2.2.2.2 " \n" rfl).2 (by decide)⟩

/-- C10.  Every field value taken from the source document is stored
stripped: a `date` value (whenever non-null) and each of the five data
fields whose cell is present carry no leading or trailing whitespace. -/
theorem c10_whitespace_stripped (rows : List CalendarRow) (k : Nat)
    (ev : NewsEvent) (row : CalendarRow)
    (h : (scanRows none rows)[k]? = some ev)
    (hrow : (rows.filter rowIsHigh)[k]? = some row) :
    (∀ d, ev.date = some d → strippedStr d = true) ∧
    (∀ t, row.time = some t → strippedStr ev.time = true) ∧
    (∀ t, row.currency = some t → strippedStr ev.currency = true) ∧
    (∀ t, row.event = some t → strippedStr ev.event = true) ∧
    (∀ t, row.forecast = some t → strippedStr ev.forecast = true) ∧
    (∀ t, row.previous = some t → strippedStr ev.previous = true) := by
  rw [scanRows_eq_filter, scanHigh_getElem?, hrow] at h
  simp only [Option.map_some', Option.some_inj] at h
  constructor
  · intro d hd
    rw [← h] at hd
    simp only [mkEvent] at hd
    rw [foldl_stepDate_none] at hd
    have hmem : d ∈ ((rows.filter rowIsHigh).take (k + 1)).filterMap
        declaredDate := List.mem_of_getLast?_eq_some hd
    rcases List.mem_filterMap.mp hmem with ⟨r, _, hr⟩
    exact declaredDate_stripped r d hr
  · refine ⟨?_, ?_, ?_, ?_, ?_⟩ <;>
      (intro t ht; rw [← h]; simp [mkEvent, optField, ht, strippedStr_pyStrip])

/-- Witness for C10 at a row whose cells all carry padded text: every
stored field is stripped. -/
theorem c10_whitespace_stripped_witness :
    strippedStr "Jan 8" = true ∧ strippedStr "9:00am" = true ∧
    strippedStr "USD" = true ∧ strippedStr "CPI" = true ∧
    strippedStr "2%" = true ∧ strippedStr "1%" = true := by
  have h := c10_whitespace_stripped [c10Row] 0
    ⟨some "Jan 8", "9:00am", "USD", "CPI", "2%", "1%"⟩ c10Row
    (by decide) (by decide)
  exact ⟨h.1 "Jan 8" rfl, h.2.1 " 9:00am " rfl, h.2.2.1 " USD " rfl,
    h.2.2.2.1 " CPI " rfl, h.2.2.2.2.1 " 2% " rfl, h.2.2.2.2.2 " 1% " rfl⟩

end ForexTrello
